import Mathlib

/-!
Shallow embedding of the RF/LoS core of the `los_tools` repository
(`src/lora-calculator.js`: class `LoRaCalculator` and class `ElevationService`).

JavaScript numbers are modelled exactly: table lookups, data rate and
time-on-air are rational computations (ℚ, with `Math.round` as floor of
x + 1/2 and `Math.ceil` as `Int.ceil`); path loss, Fresnel geometry, link
budget and the line-of-sight scan use ℝ (with `Math.log10` as
`Real.logb 10`, `Math.pow` as `Real.rpow`, `Math.sqrt` as `Real.sqrt`).
The JavaScript value `Infinity`, used as the initial accumulator of the
minimum Fresnel-clearance fold, is modelled by `⊤ : EReal`.
-/

namespace LosTools

/-- Result of a JavaScript property lookup that can yield `undefined`:
`sensitivityTable[bw][sf]` evaluates to `undefined` when `bw` is a table
key but `sf` is not. -/
inductive JsValue where
  | undefined : JsValue
  | number (q : ℚ) : JsValue
deriving DecidableEq

/-- The runtime error thrown when indexing into `undefined`
(`sensitivityTable[bw]` is `undefined` when `bw` is not a table key, and
`undefined[sf]` throws a TypeError). -/
inductive JsError where
  | typeError : JsError
deriving DecidableEq

/-- Row of `this.sensitivityTable` for bandwidth key `'125'` (dBm values). -/
def sensRow125 (sf : ℕ) : Option ℚ :=
  if sf = 7 then some (-123)
  else if sf = 8 then some (-126)
  else if sf = 9 then some (-129)
  else if sf = 10 then some (-132)
  else if sf = 11 then some (-134.5)
  else if sf = 12 then some (-137)
  else none

/-- Row of `this.sensitivityTable` for bandwidth key `'250'`. -/
def sensRow250 (sf : ℕ) : Option ℚ :=
  if sf = 7 then some (-120)
  else if sf = 8 then some (-123)
  else if sf = 9 then some (-125)
  else if sf = 10 then some (-128)
  else if sf = 11 then some (-131)
  else if sf = 12 then some (-133)
  else none

/-- Row of `this.sensitivityTable` for bandwidth key `'500'`. -/
def sensRow500 (sf : ℕ) : Option ℚ :=
  if sf = 7 then some (-117)
  else if sf = 8 then some (-120)
  else if sf = 9 then some (-122)
  else if sf = 10 then some (-125)
  else if sf = 11 then some (-128)
  else if sf = 12 then some (-130)
  else none

/-- `this.sensitivityTable[bw]`: `none` when `bw` is not one of the three
bandwidth keys (the JavaScript lookup yields `undefined`). -/
def sensitivityTable (bw : ℚ) : Option (ℕ → Option ℚ) :=
  if bw = 125 then some sensRow125
  else if bw = 250 then some sensRow250
  else if bw = 500 then some sensRow500
  else none

/-- `LoRaCalculator.getSensitivity(sf, bw)`, i.e. the JavaScript expression
`this.sensitivityTable[bw][sf]`: indexing `undefined` with `[sf]` throws a
TypeError when `bw` is not a table key; otherwise the row lookup yields the
value or `undefined`. -/
def getSensitivity (sf : ℕ) (bw : ℚ) : Except JsError JsValue :=
  match sensitivityTable bw with
  | none => Except.error JsError.typeError
  | some row =>
    match row sf with
    | none => Except.ok JsValue.undefined
    | some q => Except.ok (JsValue.number q)

/-- The numeric result of the sensitivity lookup, when it is defined. -/
def getSensitivityQ (sf : ℕ) (bw : ℚ) : Option ℚ :=
  (sensitivityTable bw).bind fun row => row sf

/-- JavaScript `Math.round`: rounds half away from zero upward, i.e.
`⌊x + 1/2⌋`. -/
def jsRound (x : ℚ) : ℤ := ⌊x + 1/2⌋

/-- `LoRaCalculator.calculateDataRate(sf, bw, cr)` (bps). -/
def calculateDataRate (sf : ℕ) (bw cr : ℚ) : ℤ :=
  let bandwidth := bw * 1000
  let codingRate := 4 / cr
  let symbolRate := bandwidth / 2 ^ sf
  let dataRate := symbolRate * sf * codingRate
  jsRound dataRate

/-- `LoRaCalculator.calculateTimeOnAir(payloadBytes, sf, bw, cr)` (ms). -/
def calculateTimeOnAir (payloadBytes sf : ℕ) (bw cr : ℚ) : ℚ :=
  let bandwidth := bw * 1000
  let symbolDuration := 2 ^ sf / bandwidth
  let preambleDuration := (8 + 4.25) * symbolDuration
  let payloadSymbolNb : ℚ :=
    8 + max (((⌈(8 * (payloadBytes : ℚ) - 4 * sf + 28) / (4 * sf)⌉ : ℤ) : ℚ) * cr) 0
  let payloadDuration := payloadSymbolNb * symbolDuration
  (preambleDuration + payloadDuration) * 1000

/-- Modelled from the spec wording of the time-on-air claim: total time on
air "in seconds" — preamble of (8 + 4.25) symbol periods, payload symbol
count `8 + max(ceil((8*payloadBytes - 4*sf + 28)/(4*sf)) * cr, 0)`, symbol
period `2^sf / bw_Hz`, total = (preamble + payload) symbols × symbol
period. Stated for comparison against `calculateTimeOnAir`. -/
def timeOnAirSpecSeconds (payloadBytes sf : ℕ) (bw cr : ℚ) : ℚ :=
  let symbolPeriod := 2 ^ sf / (bw * 1000)
  let payloadSymbols : ℚ :=
    8 + max (((⌈(8 * (payloadBytes : ℚ) - 4 * sf + 28) / (4 * sf)⌉ : ℤ) : ℚ) * cr) 0
  ((8 + 4.25) + payloadSymbols) * symbolPeriod

open scoped Classical

noncomputable section

/-- `LoRaCalculator.calculateFSPL(distanceKm, frequencyMHz)` (dB):
free-space path loss, 0 for non-positive distance. -/
def calculateFSPL (distanceKm frequencyMHz : ℝ) : ℝ :=
  if distanceKm ≤ 0 then 0
  else 20 * Real.logb 10 distanceKm + 20 * Real.logb 10 frequencyMHz + 32.45

/-- `LoRaCalculator.calculateFresnelRadius(d1, d2, frequencyMHz)`:
first-Fresnel-zone radius in meters at the point splitting the path into
`d1`/`d2` km; 0 when the total distance is 0. -/
def calculateFresnelRadius (d1 d2 frequencyMHz : ℝ) : ℝ :=
  if d1 + d2 = 0 then 0
  else 17.3 * Real.sqrt ((d1 * d2) / (frequencyMHz * (d1 + d2)))

/-- `LoRaCalculator.calculateMaxFresnelRadius(distanceKm, frequencyMHz)`:
the radius at the midpoint d1 = d2 = distance/2. -/
def calculateMaxFresnelRadius (distanceKm frequencyMHz : ℝ) : ℝ :=
  calculateFresnelRadius (distanceKm / 2) (distanceKm / 2) frequencyMHz

/-- The parameter object destructured by `calculateLinkBudget` and
`calculateMaxRange` (the JS default `fadeMargin = 10` is a structure field
default). -/
structure RFParams where
  txPower : ℝ
  txGain : ℝ
  rxGain : ℝ
  frequency : ℝ
  distance : ℝ
  sf : ℕ
  bw : ℚ
  cr : ℚ
  fadeMargin : ℝ := 10

/-- The link-status strings produced by `calculateLinkBudget`. -/
inductive Status where
  | excellent
  | good
  | marginal
  | poor
deriving DecidableEq

/-- The object returned by `calculateLinkBudget` (the `details` sub-object,
which merely echoes inputs and the two constants, is omitted). -/
structure LinkBudgetResult where
  sensitivity : ℝ
  pathLoss : ℝ
  rxPower : ℝ
  linkMargin : ℝ
  linkBudget : ℝ
  dataRate : ℤ
  fresnelRadius : ℝ
  status : Status

/-- `LoRaCalculator.calculateLinkBudget(params)`: `none` when the
sensitivity lookup is undefined (a JS run would then propagate NaN). -/
def calculateLinkBudget (p : RFParams) : Option LinkBudgetResult :=
  (getSensitivityQ p.sf p.bw).map fun (s : ℚ) =>
    let sensitivity : ℝ := (s : ℝ)
    let pathLoss := calculateFSPL p.distance p.frequency
    let miscLosses : ℝ := 2
    let rxPower := p.txPower + p.txGain + p.rxGain - pathLoss - miscLosses
    let linkMargin := rxPower - sensitivity
    let requiredMargin := p.fadeMargin
    let linkBudget := linkMargin - p.fadeMargin
    let dataRate := calculateDataRate p.sf p.bw p.cr
    let fresnelRadius := calculateMaxFresnelRadius p.distance p.frequency
    let status :=
      if linkMargin < requiredMargin then Status.poor
      else if linkMargin < requiredMargin + 10 then Status.marginal
      else if linkMargin < requiredMargin + 20 then Status.good
      else Status.excellent
    { sensitivity := sensitivity, pathLoss := pathLoss, rxPower := rxPower,
      linkMargin := linkMargin, linkBudget := linkBudget, dataRate := dataRate,
      fresnelRadius := fresnelRadius, status := status }

/-- `LoRaCalculator.calculateMaxRange(params)` (km): inverts the FSPL
formula on the available path-loss budget; `none` when the sensitivity
lookup is undefined. -/
def calculateMaxRange (p : RFParams) : Option ℝ :=
  (getSensitivityQ p.sf p.bw).map fun (s : ℚ) =>
    let miscLosses : ℝ := 2
    let pathLossBudget :=
      p.txPower + p.txGain + p.rxGain - (s : ℝ) - miscLosses - p.fadeMargin
    (10 : ℝ) ^ ((pathLossBudget - 20 * Real.logb 10 p.frequency - 32.45) / 20)

/-- `ElevationService.earthRadius` (km). -/
def earthRadius : ℝ := 6371

/-- `ElevationService.toRadians(degrees)`. -/
def toRadians (degrees : ℝ) : ℝ := degrees * Real.pi / 180

/-- JavaScript `Math.atan2(y, x)`: the argument of the complex number
x + y·i. -/
def atan2 (y x : ℝ) : ℝ := Complex.arg ⟨x, y⟩

/-- `ElevationService.calculateDistance(lat1, lon1, lat2, lon2)` (km):
haversine great-circle distance. -/
def calculateDistance (lat1 lon1 lat2 lon2 : ℝ) : ℝ :=
  let dLat := toRadians (lat2 - lat1)
  let dLon := toRadians (lon2 - lon1)
  let a := Real.sin (dLat / 2) * Real.sin (dLat / 2) +
    Real.cos (toRadians lat1) * Real.cos (toRadians lat2) *
    Real.sin (dLon / 2) * Real.sin (dLon / 2)
  let c := 2 * atan2 (Real.sqrt a) (Real.sqrt (1 - a))
  earthRadius * c

/-- `ElevationService.calculateEarthBulge(d1, d2)` (meters). -/
def calculateEarthBulge (d1 d2 : ℝ) : ℝ :=
  (d1 * d2) / (2 * earthRadius) * 1000

/-- One sample of an elevation profile (the objects produced by
`getElevationProfile`: position, elevation in m, distance from start in
km). -/
structure ProfilePoint where
  lat : ℝ
  lon : ℝ
  elevation : ℝ
  distance : ℝ
deriving Inhabited

/-- The `elevationProfile` argument of `analyzeLineOfSight`. -/
structure ElevationProfile where
  profile : List ProfilePoint
  totalDistance : ℝ

/-- A building obstruction record (center position and height in m). -/
structure Building where
  lat : ℝ
  lon : ℝ
  height : ℝ

/-- The `type` tag of a recorded obstruction. -/
inductive ObstructionType where
  | building
  | terrain
deriving DecidableEq

/-- One entry of the `obstructions` array built by `analyzeLineOfSight`. -/
structure Obstruction where
  distance : ℝ
  elevation : ℝ
  requiredHeight : ℝ
  obstruction : ℝ
  lat : ℝ
  lon : ℝ
  type : ObstructionType

/-- The `quality` strings of the line-of-sight verdict. -/
inductive Quality where
  | excellent
  | good
  | marginal
  | poor
  | blocked
deriving DecidableEq

/-- The object returned by `analyzeLineOfSight`. The early-return branch
for a short profile carries no `quality` and no `totalDistance` field,
modelled by `none`; `fresnelClearance` is an extended real because the JS
code seeds the minimum-clearance fold with `Infinity`. -/
structure LoSResult where
  hasLoS : Bool
  obstructions : List Obstruction
  fresnelClearance : EReal
  quality : Option Quality
  totalDistance : Option ℝ

/-- The per-sample obstruction height of the scan: terrain elevation,
raised to roof height by every building lying within 50 m (0.05 km) of the
sample (the JS `buildings.forEach` with `Math.max`). -/
def obstructionHeightAt (buildings : List Building) (point : ProfilePoint) : ℝ :=
  buildings.foldl
    (fun h b =>
      if calculateDistance point.lat point.lon b.lat b.lon < 0.05 then
        max h (point.elevation + b.height)
      else h)
    point.elevation

/-- The per-sample line height of the scan: linear interpolation between
the antenna tops, minus the earth bulge at the sample. -/
def adjustedLineHeightAt (startElevation endElevation totalDistance : ℝ)
    (point : ProfilePoint) : ℝ :=
  let d1 := point.distance
  let d2 := totalDistance - d1
  let lineHeight :=
    startElevation + (endElevation - startElevation) * (d1 / totalDistance)
  lineHeight - calculateEarthBulge d1 d2

/-- The per-sample first-Fresnel-zone radius of the scan. -/
def localFresnelRadiusAt (totalDistance frequency : ℝ) (point : ProfilePoint) : ℝ :=
  calculateFresnelRadius point.distance (totalDistance - point.distance) frequency

/-- The per-sample required clearance height of the scan: adjusted line
height plus 60% of the local Fresnel radius. -/
def requiredHeightAt (startElevation endElevation totalDistance frequency : ℝ)
    (point : ProfilePoint) : ℝ :=
  adjustedLineHeightAt startElevation endElevation totalDistance point +
    localFresnelRadiusAt totalDistance frequency point * 0.6

/-- The per-sample Fresnel clearance percentage of the scan. -/
def clearancePercentAt (startElevation endElevation totalDistance frequency : ℝ)
    (buildings : List Building) (point : ProfilePoint) : ℝ :=
  (adjustedLineHeightAt startElevation endElevation totalDistance point -
      obstructionHeightAt buildings point) /
    localFresnelRadiusAt totalDistance frequency point * 100

/-- The obstruction record pushed by one scan iteration, when the
obstruction height exceeds the required height. -/
def obstructionAt (startElevation endElevation totalDistance frequency : ℝ)
    (buildings : List Building) (point : ProfilePoint) : Option Obstruction :=
  let obstructionHeight := obstructionHeightAt buildings point
  let requiredHeight :=
    requiredHeightAt startElevation endElevation totalDistance frequency point
  if obstructionHeight > requiredHeight then
    some
      { distance := point.distance, elevation := obstructionHeight,
        requiredHeight := requiredHeight,
        obstruction := obstructionHeight - requiredHeight,
        lat := point.lat, lon := point.lon,
        type :=
          if obstructionHeight > point.elevation + 5 then ObstructionType.building
          else ObstructionType.terrain }
  else none

/-- The samples visited by the scan loop
`for (let i = 1; i < profile.length - 1; i++)`: all but the two
endpoints. -/
def interiorPoints (profile : List ProfilePoint) : List ProfilePoint :=
  (profile.drop 1).dropLast

/-- `ElevationService.analyzeLineOfSight(elevationProfile, point1Height,
point2Height, fresnelRadius, frequency, buildings)`. The `fresnelRadius`
argument is accepted but unused by the code, which recomputes the local
radius at every sample. -/
def analyzeLineOfSight (elevationProfile : ElevationProfile)
    (point1Height point2Height fresnelRadius frequency : ℝ)
    (buildings : List Building) : LoSResult :=
  let profile := elevationProfile.profile
  let totalDistance := elevationProfile.totalDistance
  if profile.length < 2 then
    { hasLoS := false, obstructions := [], fresnelClearance := ((0 : ℝ) : EReal),
      quality := none, totalDistance := none }
  else
    let startElevation := profile.headI.elevation + point1Height
    let endElevation := profile.getLastI.elevation + point2Height
    let obstructions := (interiorPoints profile).filterMap
      (obstructionAt startElevation endElevation totalDistance frequency buildings)
    let minClearance : EReal := (interiorPoints profile).foldl
      (fun m point =>
        min m ((clearancePercentAt startElevation endElevation totalDistance
          frequency buildings point : ℝ) : EReal))
      ⊤
    let hasLoS := obstructions.isEmpty
    let fresnelClearance := minClearance
    let quality :=
      if hasLoS = false then Quality.blocked
      else if fresnelClearance < ((20 : ℝ) : EReal) then Quality.poor
      else if fresnelClearance < ((60 : ℝ) : EReal) then Quality.marginal
      else if fresnelClearance < ((100 : ℝ) : EReal) then Quality.good
      else Quality.excellent
    { hasLoS := hasLoS, obstructions := obstructions,
      fresnelClearance := fresnelClearance, quality := some quality,
      totalDistance := some totalDistance }

end

noncomputable section

/-- Concrete RF parameters used by witnesses: the defaults of the app UI
(14 dBm, 2 dBi gains, 868 MHz, SF7, BW125, CR5, 10 dB fade margin). -/
def witnessParams : RFParams :=
  { txPower := 14, txGain := 2, rxGain := 2, frequency := 868, distance := 0,
    sf := 7, bw := 125, cr := 5, fadeMargin := 10 }

/-- Concrete RF parameters whose path-loss budget is negative
(−300 dBm transmit power). -/
def lowPowerParams : RFParams :=
  { txPower := -300, txGain := 0, rxGain := 0, frequency := 868, distance := 0,
    sf := 12, bw := 125, cr := 5, fadeMargin := 10 }

/-- An elevation profile with no samples at all. -/
def emptyProfile : ElevationProfile := { profile := [], totalDistance := 0 }

/-- A degenerate profile sample at the origin. -/
def samplePoint : ProfilePoint := { lat := 0, lon := 0, elevation := 0, distance := 0 }

/-- A two-sample elevation profile (endpoints only, no interior samples). -/
def sampleProfile : ElevationProfile :=
  { profile := [samplePoint, samplePoint], totalDistance := 1 }

end

/-- The sensitivity lookup is defined on every in-table (sf, bw) pair. -/
lemma getSensitivityQ_isSome (sf : ℕ) (bw : ℚ) (h7 : 7 ≤ sf) (h12 : sf ≤ 12)
    (hbw : bw = 125 ∨ bw = 250 ∨ bw = 500) :
    ∃ s, getSensitivityQ sf bw = some s := by
  rcases hbw with h | h | h <;> subst h <;> interval_cases sf <;>
    simp [getSensitivityQ, sensitivityTable, sensRow125, sensRow250, sensRow500]

/-- C1: for valid parameters, evaluating the link budget at the distance
returned by `calculateMaxRange` gives a link margin within ±0.1 dB of the
configured fade margin (in exact arithmetic the two are equal: the FSPL
inversion cancels exactly). -/
theorem maxRange_linkMargin (p : RFParams) (h7 : 7 ≤ p.sf) (h12 : p.sf ≤ 12)
    (hbw : p.bw = 125 ∨ p.bw = 250 ∨ p.bw = 500)
    (d : ℝ) (hd : calculateMaxRange p = some d)
    (r : LinkBudgetResult)
    (hr : calculateLinkBudget { p with distance := d } = some r) :
    |r.linkMargin - p.fadeMargin| ≤ 0.1 := by
  obtain ⟨s, hs⟩ := getSensitivityQ_isSome p.sf p.bw h7 h12 hbw
  rw [calculateMaxRange, hs, Option.map_some'] at hd
  injection hd with hd
  rw [calculateLinkBudget] at hr
  dsimp only at hr
  rw [hs, Option.map_some'] at hr
  injection hr with hr
  subst hr
  dsimp only
  have hdpos : (0 : ℝ) < d := by
    rw [← hd]
    exact Real.rpow_pos_of_pos (by norm_num) _
  rw [calculateFSPL, if_neg (not_le.mpr hdpos), ← hd,
    Real.logb_rpow (by norm_num) (by norm_num)]
  rw [show p.txPower + p.txGain + p.rxGain -
      (20 * ((p.txPower + p.txGain + p.rxGain - (s : ℝ) - 2 - p.fadeMargin -
        20 * Real.logb 10 p.frequency - 32.45) / 20) +
        20 * Real.logb 10 p.frequency + 32.45) - 2 - (s : ℝ) - p.fadeMargin = 0
    from by ring]
  norm_num

/-- C1 (witness): at the UI default parameters the max-range distance is
defined and the link margin there is within 0.1 dB of the fade margin. -/
theorem maxRange_linkMargin_witness :
    ∃ d r, calculateMaxRange witnessParams = some d ∧
      calculateLinkBudget { witnessParams with distance := d } = some r ∧
      |r.linkMargin - witnessParams.fadeMargin| ≤ 0.1 :=
  ⟨_, _, rfl, rfl,
    maxRange_linkMargin witnessParams (by norm_num [witnessParams])
      (by norm_num [witnessParams]) (Or.inl rfl) _ rfl _ rfl⟩

/-- C5: the status field of the link budget is poor / marginal / good /
excellent according to the position of the link margin relative to the
fade margin F, with thresholds F, F+10, F+20. -/
theorem linkBudget_status (p : RFParams) (r : LinkBudgetResult)
    (hr : calculateLinkBudget p = some r) :
    (r.linkMargin < p.fadeMargin → r.status = Status.poor) ∧
    (p.fadeMargin ≤ r.linkMargin → r.linkMargin < p.fadeMargin + 10 →
      r.status = Status.marginal) ∧
    (p.fadeMargin + 10 ≤ r.linkMargin → r.linkMargin < p.fadeMargin + 20 →
      r.status = Status.good) ∧
    (p.fadeMargin + 20 ≤ r.linkMargin → r.status = Status.excellent) := by
  rcases hs : getSensitivityQ p.sf p.bw with _ | s
  · rw [calculateLinkBudget, hs] at hr
    simp at hr
  · rw [calculateLinkBudget, hs, Option.map_some'] at hr
    injection hr with hr
    subst hr
    dsimp only
    split_ifs with h1 h2 h3 <;>
      refine ⟨fun ha => ?_, fun ha hb => ?_, fun ha hb => ?_, fun ha => ?_⟩ <;>
      first
        | rfl
        | linarith

/-- C5 (witness): the status thresholds instantiated at the UI default
parameters. -/
theorem linkBudget_status_witness :
    ∃ r, calculateLinkBudget witnessParams = some r ∧
      ((r.linkMargin < witnessParams.fadeMargin → r.status = Status.poor) ∧
       (witnessParams.fadeMargin ≤ r.linkMargin →
         r.linkMargin < witnessParams.fadeMargin + 10 →
         r.status = Status.marginal) ∧
       (witnessParams.fadeMargin + 10 ≤ r.linkMargin →
         r.linkMargin < witnessParams.fadeMargin + 20 →
         r.status = Status.good) ∧
       (witnessParams.fadeMargin + 20 ≤ r.linkMargin →
         r.status = Status.excellent)) :=
  ⟨_, rfl, linkBudget_status witnessParams _ rfl⟩

/-- C10: whenever the sensitivity lookup is defined, `calculateMaxRange`
returns a strictly positive distance — `10` raised to a real power — even
when the path-loss budget is negative. -/
theorem maxRange_pos (p : RFParams) (d : ℝ)
    (hd : calculateMaxRange p = some d) : 0 < d := by
  rcases hs : getSensitivityQ p.sf p.bw with _ | s
  · rw [calculateMaxRange, hs] at hd
    simp at hd
  · rw [calculateMaxRange, hs, Option.map_some'] at hd
    injection hd with hd
    rw [← hd]
    exact Real.rpow_pos_of_pos (by norm_num) _

/-- C10 (witness): even at −300 dBm transmit power (a hopelessly negative
budget) the returned max range is strictly positive. -/
theorem maxRange_pos_witness :
    ∃ d, calculateMaxRange lowPowerParams = some d ∧ 0 < d :=
  ⟨_, rfl, maxRange_pos lowPowerParams _ rfl⟩

/-- C7: for a fixed total distance D ≥ 0 and positive frequency, the
Fresnel radius at any split d1 + d2 = D is at most the midpoint radius
computed by `calculateMaxFresnelRadius`. -/
theorem fresnel_midpoint_max (D f d1 d2 : ℝ) (hD : 0 ≤ D) (hf : 0 < f)
    (h1 : 0 ≤ d1) (h2 : 0 ≤ d2) (hsum : d1 + d2 = D) :
    calculateFresnelRadius d1 d2 f ≤ calculateMaxFresnelRadius D f := by
  rw [calculateMaxFresnelRadius]
  rcases eq_or_lt_of_le hD with hD0 | hD0
  · rw [calculateFresnelRadius, calculateFresnelRadius,
      if_pos (by rw [hsum, ← hD0]), if_pos (by rw [← hD0]; ring)]
  · have hne : d1 + d2 ≠ 0 := by rw [hsum]; exact ne_of_gt hD0
    have hne2 : D / 2 + D / 2 ≠ 0 := by
      rw [show D / 2 + D / 2 = D by ring]
      exact ne_of_gt hD0
    rw [calculateFresnelRadius, calculateFresnelRadius, if_neg hne, if_neg hne2,
      hsum, show D / 2 + D / 2 = D by ring]
    have hq : d1 * d2 / (f * D) ≤ D / 2 * (D / 2) / (f * D) := by
      rw [div_le_div_iff_of_pos_right (by positivity)]
      nlinarith [sq_nonneg (d1 - d2)]
    exact mul_le_mul_of_nonneg_left (Real.sqrt_le_sqrt hq) (by norm_num)

/-- C7 (witness): the endpoint split (0 km, 2 km) at 1 MHz has radius at
most the midpoint maximum over a 2 km path. -/
theorem fresnel_midpoint_max_witness :
    calculateFresnelRadius 0 2 1 ≤ calculateMaxFresnelRadius 2 1 :=
  fresnel_midpoint_max 2 1 0 2 (by norm_num) (by norm_num) (by norm_num)
    (by norm_num) (by norm_num)

/-- C2 (counterexample): with the valid bandwidth key 125 but the
out-of-range spreading factor 6, `getSensitivity` does not throw: it
silently returns the JavaScript value `undefined`, contrary to the claim
that every out-of-domain (sf, bw) pair fails with an error. -/
theorem getSensitivity_silent_undefined :
    getSensitivity 6 125 ≠ Except.error JsError.typeError ∧
    getSensitivity 6 125 = Except.ok JsValue.undefined := by
  constructor <;> norm_num [getSensitivity, sensitivityTable, sensRow125] <;> simp

/-- C2 (amended): when the bandwidth is not a table key, the lookup throws
(a TypeError from indexing `undefined`); but when the bandwidth is a table
key and the spreading factor is outside [7,12], the lookup silently
returns `undefined` instead of failing. -/
theorem getSensitivity_domain (sf : ℕ) (bw : ℚ) :
    (bw ≠ 125 → bw ≠ 250 → bw ≠ 500 →
      getSensitivity sf bw = Except.error JsError.typeError) ∧
    ((bw = 125 ∨ bw = 250 ∨ bw = 500) → (sf < 7 ∨ 12 < sf) →
      getSensitivity sf bw = Except.ok JsValue.undefined) := by
  constructor
  · intro h1 h2 h3
    simp [getSensitivity, sensitivityTable, h1, h2, h3]
  · intro hbw hsf
    have h7 : sf ≠ 7 := by omega
    have h8 : sf ≠ 8 := by omega
    have h9 : sf ≠ 9 := by omega
    have h10 : sf ≠ 10 := by omega
    have h11 : sf ≠ 11 := by omega
    have h12 : sf ≠ 12 := by omega
    rcases hbw with h | h | h <;> subst h <;>
      simp [getSensitivity, sensitivityTable, sensRow125, sensRow250,
        sensRow500, h7, h8, h9, h10, h11, h12]

/-- C2 (witness): a bandwidth of 100 kHz throws, while sf = 6 at bw = 125
kHz silently yields `undefined`. -/
theorem getSensitivity_domain_witness :
    getSensitivity 7 100 = Except.error JsError.typeError ∧
    getSensitivity 6 125 = Except.ok JsValue.undefined :=
  ⟨(getSensitivity_domain 7 100).1 (by norm_num) (by norm_num) (by norm_num),
   (getSensitivity_domain 6 125).2 (Or.inl rfl) (Or.inl (by norm_num))⟩

/-- C3 (counterexample): the concrete instance sf = 7, bw = 125 kHz,
cr = 5 yields 5469 bps, not the claimed 5468: the exact value
125000/128 × 7 × 4/5 = 5468.75 is rounded up by `Math.round`. -/
theorem calculateDataRate_not_5468 :
    calculateDataRate 7 125 5 = 5469 ∧ calculateDataRate 7 125 5 ≠ 5468 := by
  constructor <;> norm_num [calculateDataRate, jsRound]

/-- C3 (amended): `calculateDataRate` computes
`sf * (bw_Hz / 2^sf) * (4/cr)` rounded by `Math.round` (half rounds up),
and the concrete instance sf = 7, bw = 125, cr = 5 equals 5469 bps. -/
theorem calculateDataRate_formula :
    (∀ (sf : ℕ) (bw cr : ℚ),
      calculateDataRate sf bw cr
        = jsRound ((sf : ℚ) * (bw * 1000 / 2 ^ sf) * (4 / cr))) ∧
    calculateDataRate 7 125 5 = 5469 := by
  constructor
  · intro sf bw cr
    unfold calculateDataRate
    ring
  · norm_num [calculateDataRate, jsRound]

/-- C8 (counterexample): at payload 10 bytes, sf 7, bw 125 kHz, cr 5, the
function returns 36.096 — milliseconds — where the claimed
seconds-valued total is 0.036096; the claim as stated fails here. -/
theorem calculateTimeOnAir_not_seconds :
    calculateTimeOnAir 10 7 125 5 ≠ timeOnAirSpecSeconds 10 7 125 5 ∧
    calculateTimeOnAir 10 7 125 5 = 4512 / 125 := by
  have hceil : (⌈(20 : ℚ) / 7⌉ : ℤ) = 3 := by
    rw [Int.ceil_eq_iff]
    norm_num
  constructor <;>
    norm_num [calculateTimeOnAir, timeOnAirSpecSeconds, hceil]

/-- C8 (amended): `calculateTimeOnAir` returns the time on air in
milliseconds — exactly 1000 times the claimed seconds total, whose
preamble (8 + 4.25 symbols), payload symbol count and symbol period
formulas the code does follow. -/
theorem calculateTimeOnAir_ms (payloadBytes sf : ℕ) (bw cr : ℚ) :
    calculateTimeOnAir payloadBytes sf bw cr
      = 1000 * timeOnAirSpecSeconds payloadBytes sf bw cr := by
  unfold calculateTimeOnAir timeOnAirSpecSeconds
  ring

/-- C6: a profile with fewer than 2 samples yields the defined boundary
result — no line of sight, empty obstruction list, zero Fresnel clearance
(and no quality or total-distance field) — without throwing. -/
theorem analyze_short (ep : ElevationProfile) (p1h p2h fr freq : ℝ)
    (buildings : List Building) (h : ep.profile.length < 2) :
    analyzeLineOfSight ep p1h p2h fr freq buildings =
      { hasLoS := false, obstructions := [], fresnelClearance := ((0 : ℝ) : EReal),
        quality := none, totalDistance := none } := by
  unfold analyzeLineOfSight
  dsimp only
  rw [if_pos h]

/-- C6 (witness): the boundary result on the empty profile. -/
theorem analyze_short_witness :
    analyzeLineOfSight emptyProfile 0 0 0 868 [] =
      { hasLoS := false, obstructions := [], fresnelClearance := ((0 : ℝ) : EReal),
        quality := none, totalDistance := none } :=
  analyze_short emptyProfile 0 0 0 868 [] (by simp [emptyProfile])

/-- C9: on a profile of exactly 2 samples the obstruction scan is skipped:
line of sight holds, no obstructions, Fresnel clearance stays at the
initial `Infinity`, and the quality is excellent — regardless of elevations,
antenna heights, frequency or buildings. -/
theorem analyze_two_samples (ep : ElevationProfile) (p1h p2h fr freq : ℝ)
    (buildings : List Building) (h : ep.profile.length = 2) :
    (analyzeLineOfSight ep p1h p2h fr freq buildings).hasLoS = true ∧
    (analyzeLineOfSight ep p1h p2h fr freq buildings).obstructions = [] ∧
    (analyzeLineOfSight ep p1h p2h fr freq buildings).fresnelClearance = ⊤ ∧
    (analyzeLineOfSight ep p1h p2h fr freq buildings).quality
      = some Quality.excellent := by
  obtain ⟨a, b, hab⟩ := List.length_eq_two.mp h
  unfold analyzeLineOfSight
  dsimp only
  rw [hab, if_neg (by simp)]
  simp [interiorPoints, not_top_lt]

/-- C9 (witness): the two-sample verdict at a concrete profile. -/
theorem analyze_two_samples_witness :
    (analyzeLineOfSight sampleProfile 0 0 0 868 []).hasLoS = true ∧
    (analyzeLineOfSight sampleProfile 0 0 0 868 []).obstructions = [] ∧
    (analyzeLineOfSight sampleProfile 0 0 0 868 []).fresnelClearance = ⊤ ∧
    (analyzeLineOfSight sampleProfile 0 0 0 868 []).quality
      = some Quality.excellent :=
  analyze_two_samples sampleProfile 0 0 0 868 [] (by simp [sampleProfile])

/-- C4 (counterexample): on a profile with no samples, the result has no
line of sight yet an empty obstruction list — so "hasLineOfSight exactly
when no obstruction was recorded" fails — and its quality is absent, not
blocked. The claim as stated, over every profile, is false. -/
theorem analyze_verdict_cex :
    ¬(((analyzeLineOfSight emptyProfile 0 0 0 868 []).hasLoS = true) ↔
      (analyzeLineOfSight emptyProfile 0 0 0 868 []).obstructions = []) ∧
    (analyzeLineOfSight emptyProfile 0 0 0 868 []).quality
      ≠ some Quality.blocked := by
  have hred : analyzeLineOfSight emptyProfile 0 0 0 868 [] =
      { hasLoS := false, obstructions := [], fresnelClearance := ((0 : ℝ) : EReal),
        quality := none, totalDistance := none } := by
    unfold analyzeLineOfSight
    dsimp only
    rw [if_pos (by simp [emptyProfile])]
  rw [hred]
  constructor
  · intro hiff
    simp at hiff
  · simp

/-- C4 (amended): for every profile with at least 2 samples, the verdict
satisfies the claim: hasLoS holds exactly when the obstruction list is
empty, which happens exactly when no interior sample scans as obstructed;
quality is blocked when hasLoS fails, else poor / marginal / good /
excellent by the minimum Fresnel-clearance thresholds 20, 60, 100. -/
theorem analyze_verdict (ep : ElevationProfile) (p1h p2h fr freq : ℝ)
    (buildings : List Building) (h : 2 ≤ ep.profile.length)
    (r : LoSResult) (hr : analyzeLineOfSight ep p1h p2h fr freq buildings = r) :
    ((r.hasLoS = true) ↔ r.obstructions = []) ∧
    (r.obstructions = [] ↔ ∀ point ∈ interiorPoints ep.profile,
      obstructionAt (ep.profile.headI.elevation + p1h)
        (ep.profile.getLastI.elevation + p2h) ep.totalDistance freq buildings
        point = none) ∧
    (r.hasLoS = false → r.quality = some Quality.blocked) ∧
    (r.hasLoS = true →
      ((r.fresnelClearance < ((20 : ℝ) : EReal) → r.quality = some Quality.poor) ∧
       (((20 : ℝ) : EReal) ≤ r.fresnelClearance →
         r.fresnelClearance < ((60 : ℝ) : EReal) →
         r.quality = some Quality.marginal) ∧
       (((60 : ℝ) : EReal) ≤ r.fresnelClearance →
         r.fresnelClearance < ((100 : ℝ) : EReal) →
         r.quality = some Quality.good) ∧
       (((100 : ℝ) : EReal) ≤ r.fresnelClearance →
         r.quality = some Quality.excellent))) := by
  subst hr
  unfold analyzeLineOfSight
  dsimp only
  rw [if_neg (by omega)]
  dsimp only
  refine ⟨by simp [List.isEmpty_iff], List.filterMap_eq_nil_iff, ?_, ?_⟩
  · intro hf
    rw [hf, if_pos rfl]
  · intro ht
    rw [ht, if_neg (by simp : ¬((true : Bool) = false))]
    have h2060 : ((20 : ℝ) : EReal) ≤ ((60 : ℝ) : EReal) :=
      EReal.coe_le_coe_iff.mpr (by norm_num)
    have h20100 : ((20 : ℝ) : EReal) ≤ ((100 : ℝ) : EReal) :=
      EReal.coe_le_coe_iff.mpr (by norm_num)
    have h60100 : ((60 : ℝ) : EReal) ≤ ((100 : ℝ) : EReal) :=
      EReal.coe_le_coe_iff.mpr (by norm_num)
    split_ifs with hpoor hmarg hgood <;>
      refine ⟨fun ha => ?_, fun ha hb => ?_, fun ha hb => ?_, fun ha => ?_⟩
    · rfl
    · exact absurd (hpoor.trans_le ha) (lt_irrefl _)
    · exact absurd (hpoor.trans_le (h2060.trans ha)) (lt_irrefl _)
    · exact absurd (hpoor.trans_le (h20100.trans ha)) (lt_irrefl _)
    · exact absurd ha hpoor
    · rfl
    · exact absurd (hmarg.trans_le ha) (lt_irrefl _)
    · exact absurd (hmarg.trans_le (h60100.trans ha)) (lt_irrefl _)
    · exact absurd ha hpoor
    · exact absurd hb hmarg
    · rfl
    · exact absurd (hgood.trans_le ha) (lt_irrefl _)
    · exact absurd ha hpoor
    · exact absurd hb hmarg
    · exact absurd hb hgood
    · rfl

/-- C4 (witness): the amended verdict instantiated on the concrete
two-sample profile. -/
theorem analyze_verdict_witness :
    (((analyzeLineOfSight sampleProfile 0 0 0 868 []).hasLoS = true) ↔
      (analyzeLineOfSight sampleProfile 0 0 0 868 []).obstructions = []) ∧
    ((analyzeLineOfSight sampleProfile 0 0 0 868 []).obstructions = [] ↔
      ∀ point ∈ interiorPoints sampleProfile.profile,
        obstructionAt (sampleProfile.profile.headI.elevation + 0)
          (sampleProfile.profile.getLastI.elevation + 0)
          sampleProfile.totalDistance 868 [] point = none) ∧
    ((analyzeLineOfSight sampleProfile 0 0 0 868 []).hasLoS = false →
      (analyzeLineOfSight sampleProfile 0 0 0 868 []).quality
        = some Quality.blocked) ∧
    ((analyzeLineOfSight sampleProfile 0 0 0 868 []).hasLoS = true →
      (((analyzeLineOfSight sampleProfile 0 0 0 868 []).fresnelClearance
          < ((20 : ℝ) : EReal) →
        (analyzeLineOfSight sampleProfile 0 0 0 868 []).quality
          = some Quality.poor) ∧
       (((20 : ℝ) : EReal)
          ≤ (analyzeLineOfSight sampleProfile 0 0 0 868 []).fresnelClearance →
        (analyzeLineOfSight sampleProfile 0 0 0 868 []).fresnelClearance
          < ((60 : ℝ) : EReal) →
        (analyzeLineOfSight sampleProfile 0 0 0 868 []).quality
          = some Quality.marginal) ∧
       (((60 : ℝ) : EReal)
          ≤ (analyzeLineOfSight sampleProfile 0 0 0 868 []).fresnelClearance →
        (analyzeLineOfSight sampleProfile 0 0 0 868 []).fresnelClearance
          < ((100 : ℝ) : EReal) →
        (analyzeLineOfSight sampleProfile 0 0 0 868 []).quality
          = some Quality.good) ∧
       (((100 : ℝ) : EReal)
          ≤ (analyzeLineOfSight sampleProfile 0 0 0 868 []).fresnelClearance →
        (analyzeLineOfSight sampleProfile 0 0 0 868 []).quality
          = some Quality.excellent))) :=
  analyze_verdict sampleProfile 0 0 0 868 [] (by simp [sampleProfile]) _ rfl

end LosTools
